import Mathlib

/-!
Shallow embedding of the cardio2e serial protocol engine
(`cardio2e_modules/`: `cardio2e_zones.py`, `cardio2e_errors.py`,
`cardio2e_serial.py`, `cardio2e_listener.py`, `cardio2e_hvac.py`,
`cardio2e_constants.py`), together with theorems settling the claims
about it.  Python strings are modelled through their character lists
(`String` in Lean 4.14 is a structure holding `data : List Char`), and
fallible Python code (exceptions, `IndexError`) is modelled with
`Option`.
-/

namespace Cardio2e

/-! ## String helpers shared by several embedded functions

Python's `str.split()` (no argument) splits on runs of whitespace and
drops empty fragments; `str.strip()` trims whitespace at both ends;
`str.split(sep)` with a one-character separator splits at every
occurrence keeping empty fragments; `str.replace(old, new)` rewrites
non-overlapping occurrences left to right; `str.lower()` lowercases.
These are re-implemented structurally on `List Char` so that the kernel
can evaluate them. -/

/-- Split a character list at every occurrence of `sep`, keeping empty
fragments (Python `str.split(sep)` for a one-character separator). -/
def splitChar (sep : Char) : List Char → List (List Char)
  | [] => [[]]
  | c :: rest =>
    let r := splitChar sep rest
    if c = sep then [] :: r
    else
      match r with
      | [] => [[c]]
      | h :: t => (c :: h) :: t

/-- Trim whitespace at both ends of a character list (Python `str.strip()`). -/
def stripChars (l : List Char) : List Char :=
  ((l.dropWhile Char.isWhitespace).reverse.dropWhile Char.isWhitespace).reverse

/-- Split a character list on runs of whitespace, dropping empty
fragments (Python `str.split()` with no argument). -/
def pyWords (l : List Char) : List (List Char) :=
  (splitChar ' ' ((stripChars l).map fun c => if c.isWhitespace then ' ' else c)).filter
    (fun w => w ≠ [])

/-- Rewrite every occurrence of the literal four-character sequence
`#015` into a carriage return (Python `received_message.replace('#015', '\r')`). -/
def replace015 : List Char → List Char
  | '#' :: '0' :: '1' :: '5' :: rest => '\r' :: replace015 rest
  | c :: rest => c :: replace015 rest
  | [] => []

/-- Lowercase a string character-wise (Python `str.lower()`). -/
def pyLower (s : String) : String :=
  String.mk (s.data.map Char.toLower)

/-! ## Zone character interpretation (`cardio2e_zones.py`, lines 11-27) -/

/-- Translation of `interpret_zone_character(character, zone_id,
zones_normal_as_off)` from `cardio2e_zones.py`: interprets one zone
state character, with state inversion for the zone ids listed in
`zones_normal_as_off`. -/
def interpret_zone_character (character : Char) (zone_id : Nat)
    (zones_normal_as_off : List Nat) : String :=
  if character = 'O' then
    if zone_id ∈ zones_normal_as_off then "OFF" else "ON"
  else if character = 'N' then
    if zone_id ∈ zones_normal_as_off then "OFF" else "ON"
  else if character = 'C' then
    if zone_id ∈ zones_normal_as_off then "ON" else "OFF"
  else if character = 'E' then "ERROR"
  else "UNKNOWN"

/-! ## Framer burst splitting (`cardio2e_listener.py`, lines 131-143)

After a terminated raw line has been extracted and stripped, the
listener substitutes `#015` by `\r`, splits on `@` and on `\r`,
discards empty fragments, re-prepends `@` to each remaining fragment
(stripped), and tokenizes each resulting message with `msg.split()`. -/

/-- Translation of the burst-splitting block of `listen_for_updates`:
turns one stripped raw line into the list of token lists that are
dispatched. -/
def split_concatenated_messages (received_message : String) : List (List String) :=
  let replaced := replace015 received_message.data
  let messages := (splitChar '@' replaced).flatMap (splitChar '\r')
  messages.filterMap fun msg =>
    if msg = [] then none
    else some ((pyWords ('@' :: stripChars msg)).map String.mk)

/-! ## Zone bypass command (`cardio2e_zones.py`, lines 40-77) -/

/-- Translation of the snapshot-normalisation step of
`handle_bypass_command`: if the last known snapshot is empty or its
length differs from the zone count 16, it is reset to all-`N`
(`app_state.bypass_states = "N" * 16`).  An empty Python string is
falsy and also has length 0 ≠ 16, so the length test captures both
disjuncts of the source condition. -/
def normalize_bypass_snapshot (s : String) : String :=
  if s.data.length ≠ 16 then String.mk (List.replicate 16 'N') else s

/-- Translation of the payload-construction part of
`handle_bypass_command(serial_conn, topic, payload, app_state)`: from
the zone id parsed off the topic, the MQTT payload and the last known
snapshot, compute the full bypass string sent on the bus
(`send_command(serial_conn, "B", 1, ...)`), or `none` when the payload
is invalid (source returns without sending) or the index is out of
range (Python `IndexError`).  Zone ids are positive (parsed from the
topic); Python's negative-index semantics for a hypothetical id 0 is
not modelled. -/
def handle_bypass_command (zone_id : Nat) (payload : String) (snapshot : String) :
    Option String :=
  let zs := normalize_bypass_snapshot snapshot
  if payload = "ON" then
    if zone_id - 1 < zs.data.length then
      some (String.mk (zs.data.set (zone_id - 1) 'Y'))
    else none
  else if payload = "OFF" then
    if zone_id - 1 < zs.data.length then
      some (String.mk (zs.data.set (zone_id - 1) 'N'))
    else none
  else none

/-! ## Serial access locking discipline
(`cardio2e_serial.py` lines 104-146, `cardio2e_listener.py` lines 9 and 99-104)

The listener imports a module-level `_serial_lock` from
`cardio2e_serial` and wraps its per-iteration `in_waiting`/`read`
cycle in `with _serial_lock:`.  `query_state` and `query_name` in
`cardio2e_serial.py` contain no `with` statement at all: their
`write`/`in_waiting`/`read` exchange runs without acquiring any lock.
(`cardio2e_serial.py` moreover never defines `_serial_lock`, so the
listener's import statement itself cannot succeed.)  Each transport
operation is recorded below together with whether the serial lock is
held at that point in the source. -/

/-- Operation on the shared serial transport. -/
inductive SerialOp where
  | write (data : String)
  | check_waiting
  | read_chunk
deriving DecidableEq, Repr

/-- Transport operation tagged with whether the process-wide serial
lock is held while it executes. -/
structure SerialAction where
  op : SerialOp
  holds_serial_lock : Bool
deriving DecidableEq, Repr

/-- Transport operations of one attempt of `query_state` (source lines
115-124): write the query, poll `in_waiting`, read the waiting bytes.
No lock acquisition appears anywhere in `query_state`. -/
def query_state_attempt_actions (command : String) : List SerialAction :=
  [⟨.write command, false⟩, ⟨.check_waiting, false⟩, ⟨.read_chunk, false⟩]

/-- Transport operations of one attempt of `query_name` (source lines
60-69): write the query, poll `in_waiting`, read the waiting bytes.
No lock acquisition appears anywhere in `query_name`. -/
def query_name_attempt_actions (command : String) : List SerialAction :=
  [⟨.write command, false⟩, ⟨.check_waiting, false⟩, ⟨.read_chunk, false⟩]

/-- Transport operations of one read cycle of `listen_for_updates`
(source lines 100-104): `in_waiting` and `read` performed inside
`with _serial_lock:`. -/
def listener_read_cycle_actions : List SerialAction :=
  [⟨.check_waiting, true⟩, ⟨.read_chunk, true⟩]

/-! ## NACK decoding (`cardio2e_constants.py` lines 46-58,
`cardio2e_errors.py` lines 12-21, `cardio2e_listener.py` lines 179-183) -/

/-- Translation of the `ERROR_CODES` dictionary of
`cardio2e_constants.py` (keys are the string form of the numeric
codes). -/
def ERROR_CODES (code : String) : Option String :=
  if code = "1" then some "Object type specified by the transaction is not recognized"
  else if code = "2" then some "Object number is out of range for the object type specified"
  else if code = "3" then some "One or more parameters are not valid"
  else if code = "4" then some "Security code is not valid"
  else if code = "5" then some "Transaction S (Set) not supported for the requested type of object"
  else if code = "6" then some "Transaction G (Get) not supported for the requested type of object"
  else if code = "7" then some "Transaction is refused because security is armed"
  else if code = "8" then some "This zone can be ignored"
  else if code = "16" then some "Security can not be armed because there are open zones"
  else if code = "17" then some "Security can not be armed because there is a power problem"
  else if code = "18" then some "Security can not be armed for an unknown reason"
  else none

/-- Translation of `format_error_message(message_parts)` from
`cardio2e_errors.py`: builds the raw `@N` transcript from
`message_parts[1..3]`, looks the code `message_parts[3]` up in
`ERROR_CODES` with the generic fallback, and returns
`f"{description}: {raw_msg}"`.  Returns `none` when an index is
missing, modelling the Python `IndexError`. -/
def format_error_message (message_parts : List String) : Option String := do
  let p1 ← message_parts[1]?
  let p2 ← message_parts[2]?
  let p3 ← message_parts[3]?
  let raw_msg := "@N " ++ p1 ++ " " ++ p2 ++ " " ++ p3
  let description := (ERROR_CODES p3).getD ("Unknown error message (" ++ p3 ++ ")")
  pure (description ++ ": " ++ raw_msg)

/-- Outcome of the `@N` branch of `_dispatch_message`. -/
inductive NackOutcome where
  | forwarded (description : String)
  | raised
  | not_nack
deriving DecidableEq, Repr

/-- Translation of the NACK branch of `_dispatch_message`
(`cardio2e_listener.py` lines 179-183): when
`len(message_parts) >= 3 and message_parts[0] == "@N"`, the formatted
error message is forwarded to `report_error_state`; if the formatting
itself raises (`message_parts[3]` missing), the exception escapes the
dispatcher (it is caught only by the listener loop's generic handler,
so nothing reaches the error sink).  Other messages do not take this
branch. -/
def dispatch_nack (message_parts : List String) : NackOutcome :=
  if 3 ≤ message_parts.length ∧ message_parts.head? = some "@N" then
    match format_error_message message_parts with
    | some description => .forwarded description
    | none => .raised
  else .not_nack

/-! ## Login post-ack drain (`cardio2e_serial.py` lines 190-205)

After the `@A P` acknowledgment is seen, `login` keeps polling
`in_waiting`: whenever bytes are waiting they are read, appended to
the accumulated buffer and `last_data_time` is reset; otherwise the
loop breaks once more than 1.0 s has passed since `last_data_time`,
sleeping 0.01 s per empty poll, all bounded by `post_ack_timeout`
(15 s) in total.  Time is discretised into one tick per poll
(0.01 s), so 1.0 s of silence is 100 consecutive empty polls and the
15 s budget is 1500 polls; the environment is a timeline assigning to
each tick the bytes that arrive then (or `none`). -/

/-- Number of consecutive empty polls after which the drain stops
early (1.0 s of silence at one poll per 0.01 s). -/
def login_quiet_ticks : Nat := 100

/-- Total poll budget of the drain phase (`post_ack_timeout` = 15 s at
one poll per 0.01 s). -/
def post_ack_ticks : Nat := 1500

/-- Translation of the phase-2 loop of `login`: `fuel` polls remain,
`t` is the current tick, `quiet` counts consecutive empty polls since
data was last read, `acc` is the buffer accumulated so far.  Returns
the final buffer and the tick at which the loop stopped. -/
def drain_go (timeline : Nat → Option String) (quiet_limit : Nat) :
    Nat → Nat → Nat → String → String × Nat
  | 0, t, _, acc => (acc, t)
  | fuel + 1, t, quiet, acc =>
    match timeline t with
    | some chunk => drain_go timeline quiet_limit fuel (t + 1) 0 (acc ++ chunk)
    | none =>
      if quiet_limit ≤ quiet then (acc, t)
      else drain_go timeline quiet_limit fuel (t + 1) (quiet + 1) acc

/-- Translation of the phase-2 portion of `login`: starting from the
buffer accumulated during the acknowledgment phase (which `login`
returns as part of its response), drain announcements until 1.0 s of
silence or the `post_ack_timeout` budget runs out.  Returns the
response string handed back by `login` together with the tick at
which reading stopped. -/
def login_post_ack (timeline : Nat → Option String) (ack_buffer : String) :
    String × Nat :=
  let r := drain_go timeline login_quiet_ticks post_ack_ticks 0 0 ""
  (ack_buffer ++ r.1, r.2)

/-- Timeline delivering three chunks on consecutive ticks and then
silence forever. -/
def timeline3 (l1 l2 l3 : String) : Nat → Option String :=
  fun t =>
    if t = 0 then some l1
    else if t = 1 then some l2
    else if t = 2 then some l3
    else none

/-! ## Synchronous state query (`cardio2e_serial.py` lines 104-146)

The retry loop of `query_state` writes the query command, then scans
incoming lines until the per-attempt timeout: stripped lines starting
with the expected `"@I {type} "` are returned tokenized
(`line.split()`), other lines are discarded; a timeout or an
exception raised by the transport increments the attempt counter; the
loop gives up after `max_retries` attempts with `None`.  One attempt
is abstracted to its observable outcome: either the transport raised,
or a given list of lines was received before the timeout. -/

/-- Observable outcome of one query attempt: the transport raised an
exception, or the listed lines arrived within the attempt's timeout
window. -/
inductive AttemptOutcome where
  | raises
  | lines (ls : List String)

/-- Check whether the character list `s` starts with `p`. -/
def startsWithChars : List Char → List Char → Bool
  | [], _ => true
  | _ :: _, [] => false
  | p :: ps, c :: cs => p = c && startsWithChars ps cs

/-- Result of one attempt of `query_state`: the token list of the
first received line that (after stripping) starts with the expected
response marker, or `none` when the attempt fails (exception, or no
matching line before the timeout).  Non-matching lines are discarded,
as in the source. -/
def attempt_result (expected : String) : AttemptOutcome → Option (List String)
  | .raises => none
  | .lines ls =>
    ((ls.map fun l => String.mk (stripChars l.data)).find?
        (fun l => startsWithChars expected.data l.data)).map
      (fun l => (pyWords l.data).map String.mk)

/-- Translation of the retry loop of `query_state`: `fuel` attempts
remain, `k` indexes the environment's outcome for the current
attempt.  Returns the result and the number of attempts executed;
each attempt begins by writing the query command (source line 115),
so the second component is also the number of writes issued. -/
def query_state_go (expected : String) (env : Nat → AttemptOutcome) :
    Nat → Nat → Option (List String) × Nat
  | 0, _ => (none, 0)
  | fuel + 1, k =>
    match attempt_result expected (env k) with
    | some toks => (some toks, 1)
    | none =>
      let r := query_state_go expected env fuel (k + 1)
      (r.1, r.2 + 1)

/-- Translation of `query_state(serial_conn, entity_id, entity_type,
timeout, max_retries)`: the expected response marker is
`f"@I {entity_type} "` (source line 110) and at most `max_retries`
attempts are made.  Exceptions never escape: they are data
(`AttemptOutcome.raises`) counted as failed attempts, mirroring the
source's `except` clause. -/
def query_state (entity_type : String) (max_retries : Nat)
    (env : Nat → AttemptOutcome) : Option (List String) × Nat :=
  query_state_go ("@I " ++ entity_type ++ " ") env max_retries 0

/-! ## HVAC encode/decode tables (`cardio2e_constants.py` lines 11-24,
`cardio2e_serial.py` lines 23-31, `cardio2e_hvac.py` lines 107-113) -/

/-- Translation of the `HVAC_MODE_TO_CODE` dictionary. -/
def HVAC_MODE_TO_CODE : List (String × String) :=
  [("auto", "A"), ("heat", "H"), ("cool", "C"), ("off", "O"),
   ("economy", "E"), ("normal", "N")]

/-- Translation of `HVAC_CODE_TO_MODE = {v: k for k, v in
HVAC_MODE_TO_CODE.items()}`. -/
def HVAC_CODE_TO_MODE : List (String × String) :=
  HVAC_MODE_TO_CODE.map fun p => (p.2, p.1)

/-- Translation of the `FAN_STATE_TO_CODE` dictionary. -/
def FAN_STATE_TO_CODE : List (String × String) :=
  [("on", "R"), ("off", "S")]

/-- Translation of `FAN_CODE_TO_STATE = {v: k for k, v in
FAN_STATE_TO_CODE.items()}`. -/
def FAN_CODE_TO_STATE : List (String × String) :=
  FAN_STATE_TO_CODE.map fun p => (p.2, p.1)

/-- Python `dict.get(key, default)` on an association list. -/
def dictGet (d : List (String × String)) (key dflt : String) : String :=
  match d.find? (fun p => p.1 = key) with
  | some p => p.2
  | none => dflt

/-- Translation of the HVAC branch of `send_command` (source lines
23-31): the command written is
`f"@S H {entity_id} {heating_setpoint} {cooling_setpoint}
{fan_state_code} {mode_code}\r"` with
`fan_state_code = FAN_STATE_TO_CODE.get(fan_state, "S")` and
`mode_code = HVAC_MODE_TO_CODE.get(mode, "O")`; this definition
records its whitespace-separated token content. -/
def send_command_hvac_tokens (entity_id heating cooling fan_state mode : String) :
    List String :=
  ["@S", "H", entity_id, heating, cooling,
   dictGet FAN_STATE_TO_CODE fan_state "S",
   dictGet HVAC_MODE_TO_CODE mode "O"]

/-- Translation of the fan/mode decoding of `process_update`
(`cardio2e_hvac.py` lines 112-113):
`FAN_CODE_TO_STATE.get(message_parts[5], "off")` and
`HVAC_CODE_TO_MODE.get(message_parts[6], "unknown")`; `none` models
the `IndexError` on a too-short message. -/
def process_update_fan_mode (message_parts : List String) :
    Option (String × String) := do
  let f ← message_parts[5]?
  let m ← message_parts[6]?
  pure (dictGet FAN_CODE_TO_STATE f "off", dictGet HVAC_CODE_TO_MODE m "unknown")

/-! ## Listener loop control flow (`cardio2e_listener.py` lines 79-151)

The loop checks `serial_conn.is_open` at the top of each iteration and
breaks when it is false; the whole body runs inside
`try: ... except Exception: log, increment error counter,
sleep(1)` and the loop then continues.  Each iteration is abstracted
to the transport-open flag observed at its top and the outcome of the
body. -/

/-- Outcome of one iteration body: it completed, or it raised an
exception (malformed frame, handler failure, transport read error). -/
inductive BodyOutcome where
  | completed
  | raised
deriving DecidableEq, Repr

/-- Translation of one iteration of `listen_for_updates`: returns
`true` when the loop proceeds to the next iteration and `false` when
it breaks.  A closed transport breaks out of the loop before the
`try` block; an exception raised by the body is caught by the
`except` clause, logged, followed by a 1 s backoff, and the loop
continues. -/
def listener_iteration (is_open : Bool) (body : BodyOutcome) : Bool :=
  if is_open = false then false
  else
    match body with
    | .completed => true
    | .raised => true

/-- Run the listener loop over a trace of iterations (per-iteration
transport-open flag and body outcome): returns `some k` when the loop
exits at iteration `k`, `none` when the trace is exhausted with the
loop still running. -/
def run_listener : List (Bool × BodyOutcome) → Option Nat
  | [] => none
  | (is_open, body) :: rest =>
    if listener_iteration is_open body then (run_listener rest).map (· + 1)
    else some 0

/-! ## HVAC set command (`cardio2e_hvac.py` lines 46-88)

`handle_set_command` updates one field of the per-id HVAC record
according to the topic's setting type (`float(payload)` for the
setpoints, `payload.lower()` for fan and mode), then sends
`heating_setpoint = float(state["cooling_setpoint"]) - 2`,
`cooling_setpoint = float(state["cooling_setpoint"])` and the stored
fan and mode (source lines 73-76).  Python floats are modelled as
rationals; the command is only reached when the record exists and has
a `cooling_setpoint`, which the record type guarantees here. -/

/-- Per-id HVAC state record (the dictionary entries touched by
`handle_set_command`). -/
structure HvacRecord where
  heating_setpoint : ℚ
  cooling_setpoint : ℚ
  fan : String
  mode : String
deriving DecidableEq, Repr

/-- Translation of the setting-type dispatch of `handle_set_command`
(source lines 61-71): update the stored record, or `none` for an
unknown setting type (source logs and returns without sending). -/
def apply_hvac_setting (st : HvacRecord) (setting_type : String)
    (num_payload : ℚ) (str_payload : String) : Option HvacRecord :=
  if setting_type = "heating_setpoint" then
    some { st with heating_setpoint := num_payload }
  else if setting_type = "cooling_setpoint" then
    some { st with cooling_setpoint := num_payload }
  else if setting_type = "fan" then
    some { st with fan := pyLower str_payload }
  else if setting_type = "mode" then
    some { st with mode := pyLower str_payload }
  else none

/-- Translation of the field computation sent to the bus by
`handle_set_command` (source lines 73-88): from the updated record,
`send_command` receives `(cooling_setpoint - 2, cooling_setpoint,
fan, mode)`. -/
def hvac_sent_fields (st : HvacRecord) (setting_type : String)
    (num_payload : ℚ) (str_payload : String) :
    Option (ℚ × ℚ × String × String) :=
  (apply_hvac_setting st setting_type num_payload str_payload).map
    fun st2 => (st2.cooling_setpoint - 2, st2.cooling_setpoint, st2.fan, st2.mode)

/-! ## Theorems -/

/-- C1 counterexample: the Zone Character Rule as stated fails on the
code.  `interpret_zone_character('N', 1, [])` returns `"ON"`, not the
`"OFF"` the rule prescribes for a non-inverted `N`, and the inverted
case is flipped accordingly. -/
theorem c1_counterexample :
    interpret_zone_character 'N' 1 [] = "ON"
  ∧ interpret_zone_character 'N' 1 [1] = "OFF"
  ∧ ("ON" : String) ≠ "OFF" := by decide

/-- C1 (amended): for every zone id and invert set, `O` and `N` both
yield ON unless the zone id is inverted (then OFF); `C` yields OFF
unless inverted (then ON); `E` always yields ERROR; any other
character always yields UNKNOWN. -/
theorem c1_zone_character_rule (zone_id : Nat) (inv : List Nat) :
    interpret_zone_character 'O' zone_id inv = (if zone_id ∈ inv then "OFF" else "ON")
  ∧ interpret_zone_character 'N' zone_id inv = (if zone_id ∈ inv then "OFF" else "ON")
  ∧ interpret_zone_character 'C' zone_id inv = (if zone_id ∈ inv then "ON" else "OFF")
  ∧ interpret_zone_character 'E' zone_id inv = "ERROR"
  ∧ (∀ c : Char, c ≠ 'O' → c ≠ 'N' → c ≠ 'C' → c ≠ 'E' →
      interpret_zone_character c zone_id inv = "UNKNOWN") := by
  refine ⟨rfl, rfl, rfl, rfl, ?_⟩
  intro c hO hN hC hE
  simp [interpret_zone_character, hO, hN, hC, hE]

/-- C1 witness: the amended rule evaluated at the concrete character
`X`, zone 2 and invert set `[7]` yields UNKNOWN. -/
theorem c1_zone_character_rule_witness :
    interpret_zone_character 'X' 2 [7] = "UNKNOWN" :=
  (c1_zone_character_rule 2 [7]).2.2.2.2 'X' (by decide) (by decide) (by decide) (by decide)

/-- C2: evaluation of the locking discipline in the code.  Every
transport operation of a `query_state` or `query_name` attempt runs
with the serial lock not held (the source acquires no lock there,
contradicting the claim), while the listener's read cycle does hold
it. -/
theorem c2_query_runs_unlocked :
    (∀ a ∈ query_state_attempt_actions "@G L 1\r", a.holds_serial_lock = false)
  ∧ (∀ a ∈ query_name_attempt_actions "@G N L 1\r", a.holds_serial_lock = false)
  ∧ (∀ a ∈ listener_read_cycle_actions, a.holds_serial_lock = true) := by decide

/-- C3: the burst splitter substitutes `#015` with a carriage return,
splits on `@` and `\r`, re-prepends `@` to non-empty fragments and
discards empty ones; the raw line `"@I L 3 100@I R 5 O"` yields
exactly the token lists `["@I","L","3","100"]` and
`["@I","R","5","O"]`, and the same line with the terminator
double-encoded as `#015` yields the same two messages. -/
theorem c3_burst_split :
    split_concatenated_messages "@I L 3 100@I R 5 O"
      = [["@I", "L", "3", "100"], ["@I", "R", "5", "O"]]
  ∧ split_concatenated_messages "@I L 3 100#015@I R 5 O"
      = [["@I", "L", "3", "100"], ["@I", "R", "5", "O"]] := by decide

/-- C4 counterexample: an `@N` message with exactly 3 tokens satisfies
the dispatcher's guard (`len >= 3`) but `format_error_message` indexes
`message_parts[3]`, which does not exist, so the branch raises instead
of forwarding a decoded description to the error sink — the claim
fails at the input `["@N", "X", "9"]`. -/
theorem c4_counterexample :
    dispatch_nack ["@N", "X", "9"] = NackOutcome.raised
  ∧ format_error_message ["@N", "X", "9"] = none := by decide

/-- C4 (amended): for every message whose first token is `@N` and that
has at least 4 tokens, the dispatcher decodes the code in `tokens[3]`
through the fixed table (generic label for unknown codes) and forwards
the resulting description to the error sink; code `4` maps to
"Security code is not valid". -/
theorem c4_nack_forwarded (parts : List String) (p1 p2 p3 : String)
    (rest : List String) (hp : parts = "@N" :: p1 :: p2 :: p3 :: rest) :
    dispatch_nack parts =
      NackOutcome.forwarded
        (((ERROR_CODES p3).getD ("Unknown error message (" ++ p3 ++ ")")) ++ ": " ++
          ("@N " ++ p1 ++ " " ++ p2 ++ " " ++ p3))
  ∧ ERROR_CODES "4" = some "Security code is not valid" := by
  subst hp
  refine ⟨?_, rfl⟩
  have hfmt : format_error_message ("@N" :: p1 :: p2 :: p3 :: rest) =
      some (((ERROR_CODES p3).getD ("Unknown error message (" ++ p3 ++ ")")) ++ ": " ++
        ("@N " ++ p1 ++ " " ++ p2 ++ " " ++ p3)) := by
    simp [format_error_message]
  unfold dispatch_nack
  rw [if_pos ⟨by simp, rfl⟩, hfmt]

/-- C4 witness: the concrete message `@N S 1 4` is forwarded with the
invalid-security-code description. -/
theorem c4_nack_forwarded_witness :
    dispatch_nack ["@N", "S", "1", "4"] =
      NackOutcome.forwarded "Security code is not valid: @N S 1 4" :=
  (c4_nack_forwarded ["@N", "S", "1", "4"] "S" "1" "4" [] rfl).1

theorem normalize_bypass_snapshot_length (s : String) :
    (normalize_bypass_snapshot s).data.length = 16 := by
  unfold normalize_bypass_snapshot
  split
  · simp
  · next h => exact not_ne_iff.mp h

/-- C5: for every bypass-set command with a zone id in range, the
snapshot is first reset to all-`N` when its length differs from 16,
and the payload sent differs from the normalised snapshot in exactly
the one character at position `zone_id - 1`, set to `Y` for payload
ON and `N` for payload OFF. -/
theorem c5_bypass_payload (snapshot : String) (zone_id : Nat)
    (h1 : 1 ≤ zone_id) (h2 : zone_id ≤ 16) :
    (∃ out : String,
        handle_bypass_command zone_id "ON" snapshot = some out ∧
        out.data.length = 16 ∧
        out.data[zone_id - 1]? = some 'Y' ∧
        ∀ i : Nat, i < 16 → i ≠ zone_id - 1 →
          out.data[i]? = (normalize_bypass_snapshot snapshot).data[i]?)
  ∧ (∃ out : String,
        handle_bypass_command zone_id "OFF" snapshot = some out ∧
        out.data.length = 16 ∧
        out.data[zone_id - 1]? = some 'N' ∧
        ∀ i : Nat, i < 16 → i ≠ zone_id - 1 →
          out.data[i]? = (normalize_bypass_snapshot snapshot).data[i]?)
  ∧ (snapshot.data.length ≠ 16 →
      normalize_bypass_snapshot snapshot = String.mk (List.replicate 16 'N')) := by
  have hlen := normalize_bypass_snapshot_length snapshot
  have hidx : zone_id - 1 < (normalize_bypass_snapshot snapshot).data.length := by
    omega
  refine ⟨⟨String.mk ((normalize_bypass_snapshot snapshot).data.set (zone_id - 1) 'Y'),
      ?_, ?_, ?_, ?_⟩,
    ⟨String.mk ((normalize_bypass_snapshot snapshot).data.set (zone_id - 1) 'N'),
      ?_, ?_, ?_, ?_⟩, ?_⟩
  · unfold handle_bypass_command
    rw [if_pos rfl, if_pos hidx]
  · simpa using hlen
  · exact List.getElem?_set_eq_of_lt _ hidx
  · intro i hi hne
    exact List.getElem?_set_ne (Ne.symm hne)
  · unfold handle_bypass_command
    rw [if_neg (by decide), if_pos rfl, if_pos hidx]
  · simpa using hlen
  · exact List.getElem?_set_eq_of_lt _ hidx
  · intro i hi hne
    exact List.getElem?_set_ne (Ne.symm hne)
  · intro h
    unfold normalize_bypass_snapshot
    rw [if_pos h]

/-- C5 witness: from snapshot `"NNNNNNNNNNNNNNNN"`, toggling zone 3 to
ON sends exactly `"NNYNNNNNNNNNNNNN"`. -/
theorem c5_bypass_payload_witness :
    (∃ out : String,
        handle_bypass_command 3 "ON" "NNNNNNNNNNNNNNNN" = some out ∧
        out.data.length = 16 ∧
        out.data[2]? = some 'Y' ∧
        ∀ i : Nat, i < 16 → i ≠ 2 →
          out.data[i]? = (normalize_bypass_snapshot "NNNNNNNNNNNNNNNN").data[i]?)
  ∧ handle_bypass_command 3 "ON" "NNNNNNNNNNNNNNNN" = some "NNYNNNNNNNNNNNNN" :=
  ⟨(c5_bypass_payload "NNNNNNNNNNNNNNNN" 3 (by decide) (by decide)).1, by decide⟩

theorem string_append_assoc (a b c : String) : (a ++ b) ++ c = a ++ (b ++ c) :=
  congrArg String.mk (List.append_assoc a.data b.data c.data)

theorem drain_go_stop_le (timeline : Nat → Option String) (qL : Nat) :
    ∀ fuel t quiet acc, (drain_go timeline qL fuel t quiet acc).2 ≤ t + fuel := by
  intro fuel
  induction fuel with
  | zero => intro t quiet acc; simp [drain_go]
  | succ n ih =>
    intro t quiet acc
    unfold drain_go
    cases h : timeline t with
    | some chunk =>
      have := ih (t + 1) 0 (acc ++ chunk)
      simpa using by omega
    | none =>
      by_cases hql : qL ≤ quiet
      · simp only [if_pos hql]
        omega
      · simp only [if_neg hql]
        have := ih (t + 1) (quiet + 1) acc
        omega

theorem drain_go_silent (timeline : Nat → Option String) (qL : Nat)
    (t0 : Nat) (hsilent : ∀ u, t0 ≤ u → timeline u = none) :
    ∀ fuel t quiet acc, t0 ≤ t → quiet ≤ qL → qL - quiet < fuel →
      drain_go timeline qL fuel t quiet acc = (acc, t + (qL - quiet)) := by
  intro fuel
  induction fuel with
  | zero => intro t quiet acc ht hq hf; exact absurd hf (by omega)
  | succ n ih =>
    intro t quiet acc ht hq hf
    unfold drain_go
    rw [hsilent t ht]
    by_cases hql : qL ≤ quiet
    · rw [if_pos hql]
      have h0 : qL - quiet = 0 := by omega
      rw [h0]
      rfl
    · rw [if_neg hql]
      rw [ih (t + 1) (quiet + 1) acc (by omega) (by omega) (by omega)]
      have heq : t + 1 + (qL - (quiet + 1)) = t + (qL - quiet) := by
        omega
      rw [heq]

/-- C6: after the acknowledgment, the drain accumulates every received
chunk into the returned response; with three announcement chunks on
consecutive polls followed by silence, the response is the
acknowledgment buffer followed by all three chunks, the read stops
after the quiet period (tick `3 + login_quiet_ticks`, strictly before
the `post_ack_timeout` budget), and for every timeline the drain never
reads past the `post_ack_timeout` budget. -/
theorem c6_login_drain (ack_buffer l1 l2 l3 : String) :
    login_post_ack (timeline3 l1 l2 l3) ack_buffer
      = (ack_buffer ++ (l1 ++ (l2 ++ l3)), 3 + login_quiet_ticks)
  ∧ 3 + login_quiet_ticks < post_ack_ticks
  ∧ (∀ timeline : Nat → Option String,
      (login_post_ack timeline ack_buffer).2 ≤ post_ack_ticks) := by
  refine ⟨?_, by decide, ?_⟩
  · have hsilent : ∀ u, 3 ≤ u → timeline3 l1 l2 l3 u = none := by
      intro u hu
      unfold timeline3
      rw [if_neg (by omega), if_neg (by omega), if_neg (by omega)]
    have hstep : drain_go (timeline3 l1 l2 l3) login_quiet_ticks post_ack_ticks 0 0 ""
        = drain_go (timeline3 l1 l2 l3) login_quiet_ticks 1497 3 0
            ((("" ++ l1) ++ l2) ++ l3) := rfl
    have htail := drain_go_silent (timeline3 l1 l2 l3) login_quiet_ticks 3 hsilent
      1497 3 0 ((("" ++ l1) ++ l2) ++ l3) (by omega) (by omega) (by decide)
    unfold login_post_ack
    rw [hstep, htail]
    refine congrArg (fun p => (p, 3 + login_quiet_ticks)) ?_
    rw [show ("" : String) ++ l1 = l1 from rfl, string_append_assoc]
  · intro timeline
    have := drain_go_stop_le timeline login_quiet_ticks post_ack_ticks 0 0 ""
    unfold login_post_ack
    simpa using this

theorem query_state_go_exhausts (expected : String) (env : Nat → AttemptOutcome)
    (h : ∀ k, attempt_result expected (env k) = none) :
    ∀ fuel k, query_state_go expected env fuel k = (none, fuel) := by
  intro fuel
  induction fuel with
  | zero => intro k; rfl
  | succ n ih =>
    intro k
    unfold query_state_go
    rw [h k, ih (k + 1)]

/-- C7: against an environment in which no attempt ever observes a
line matching the `"@I {type} "` marker (timeouts and transport
exceptions alike), `query_state` executes — and therefore writes the
query — exactly `max_retries` times and returns failure, with
transport exceptions absorbed as failed attempts rather than
escaping. -/
theorem c7_query_state_exhausts_retries (entity_type : String) (max_retries : Nat)
    (env : Nat → AttemptOutcome)
    (h : ∀ k, attempt_result ("@I " ++ entity_type ++ " ") (env k) = none) :
    query_state entity_type max_retries env = (none, max_retries) :=
  query_state_go_exhausts _ env h max_retries 0

/-- C7 witness: an environment whose first attempt raises and whose
later attempts deliver only non-matching lines makes
`query_state "L" 5` fail after exactly 5 attempts. -/
theorem c7_query_state_exhausts_retries_witness :
    query_state "L" 5
        (fun k => match k with
          | 0 => AttemptOutcome.raises
          | _ + 1 => AttemptOutcome.lines ["@A L 1", " @I R 5 O ", ""])
      = (none, 5) :=
  c7_query_state_exhausts_retries "L" 5 _ (fun k => by cases k <;> rfl)

/-- C8: for every HVAC mode name and fan state in the tables, encoding
through `send_command`'s wire tables and decoding the echoed `@I H`
message through `process_update`'s tables gives back the original
values — the mapping-table pairs are mutual inverses. -/
theorem c8_hvac_round_trip (entity_id heating cooling fan mode : String)
    (hf : fan ∈ ["on", "off"])
    (hm : mode ∈ ["auto", "heat", "cool", "off", "economy", "normal"]) :
    process_update_fan_mode
        ("@I" :: (send_command_hvac_tokens entity_id heating cooling fan mode).tail)
      = some (fan, mode) := by
  fin_cases hf <;> fin_cases hm <;> rfl

/-- C8 witness: encoding mode `cool` and fan `on` and decoding the
echo yields mode `cool` and fan `on`. -/
theorem c8_hvac_round_trip_witness :
    process_update_fan_mode
        ("@I" :: (send_command_hvac_tokens "1" "20.0" "22.0" "on" "cool").tail)
      = some ("on", "cool") :=
  c8_hvac_round_trip "1" "20.0" "22.0" "on" "cool" (by decide) (by decide)

theorem listener_iteration_eq_is_open (is_open : Bool) (body : BodyOutcome) :
    listener_iteration is_open body = is_open := by
  cases is_open <;> cases body <;> rfl

/-- C9: the listener loop never terminates because of an exception in
an iteration body — over any trace whose transport stays open the loop
keeps running whatever the body outcomes are; when the loop does exit,
the transport was observed closed at the top of that iteration; and
the loop's control flow depends only on the open flags, not on which
iterations raised. -/
theorem c9_listener_loop (tr : List (Bool × BodyOutcome)) :
    ((∀ p ∈ tr, p.1 = true) → run_listener tr = none)
  ∧ (∀ k, run_listener tr = some k → (tr.map Prod.fst)[k]? = some false)
  ∧ (∀ tr2 : List (Bool × BodyOutcome),
      tr.map Prod.fst = tr2.map Prod.fst →
      run_listener tr = run_listener tr2) := by
  induction tr with
  | nil =>
    refine ⟨fun _ => rfl, fun k hk => by simp [run_listener] at hk, ?_⟩
    intro tr2 h2
    cases tr2 with
    | nil => rfl
    | cons q qs => simp at h2
  | cons p ps ih =>
    obtain ⟨p1, p2⟩ := p
    refine ⟨?_, ?_, ?_⟩
    · intro hall
      have hp1 : p1 = true := hall (p1, p2) (by simp)
      subst hp1
      unfold run_listener
      rw [listener_iteration_eq_is_open, if_pos rfl]
      rw [ih.1 (fun q hq => hall q (by simp [hq]))]
      rfl
    · intro k hk
      unfold run_listener at hk
      rw [listener_iteration_eq_is_open] at hk
      cases p1 with
      | false =>
        rw [if_neg Bool.false_ne_true] at hk
        cases hk
        simp
      | true =>
        rw [if_pos rfl] at hk
        cases hko : run_listener ps with
        | none => rw [hko] at hk; exact absurd hk (by simp)
        | some j =>
          rw [hko] at hk
          have hk2 : some (j + 1) = some k := hk
          cases hk2
          have := ih.2.1 j hko
          simpa using this
    · intro tr2 h2
      cases tr2 with
      | nil => simp at h2
      | cons q qs =>
        obtain ⟨q1, q2⟩ := q
        simp only [List.map_cons, List.cons.injEq] at h2
        obtain ⟨hq1, hqs⟩ := h2
        unfold run_listener
        rw [listener_iteration_eq_is_open, listener_iteration_eq_is_open, ← hq1]
        cases p1 with
        | false => rfl
        | true =>
          rw [if_pos rfl, if_pos rfl]
          rw [ih.2.2 qs hqs]

/-- C9 witness: a trace of three open iterations, two of which raise,
leaves the loop still running. -/
theorem c9_listener_loop_witness :
    run_listener [(true, BodyOutcome.raised), (true, BodyOutcome.raised),
        (true, BodyOutcome.completed)] = none :=
  (c9_listener_loop _).1 (by decide)

/-- C10: for each of the four accepted HVAC setting types, the heating
setpoint handed to `send_command` is the updated record's cooling
setpoint minus 2 — in particular, a heating setpoint just set by the
caller (`num_payload` in the first conjunct) never influences the
value sent. -/
theorem c10_heating_sent_is_cooling_minus_two (st : HvacRecord) (np : ℚ) (sp : String) :
    hvac_sent_fields st "heating_setpoint" np sp
      = some (st.cooling_setpoint - 2, st.cooling_setpoint, st.fan, st.mode)
  ∧ hvac_sent_fields st "cooling_setpoint" np sp
      = some (np - 2, np, st.fan, st.mode)
  ∧ hvac_sent_fields st "fan" np sp
      = some (st.cooling_setpoint - 2, st.cooling_setpoint, pyLower sp, st.mode)
  ∧ hvac_sent_fields st "mode" np sp
      = some (st.cooling_setpoint - 2, st.cooling_setpoint, st.fan, pyLower sp) :=
  ⟨rfl, rfl, rfl, rfl⟩

end Cardio2e
